import Mathlib

/-!
# PyOpenBadges — verification of the credential model and proof subsystem

Shallow embedding of `pyopenbadges/models/credential.py` (present in the
repository source snapshot) together with the crypto proof subsystem
(`pyopenbadges/crypto/keys.py`, `signing.py`, `verification.py`, the
credential `sign` / `verify_signature` methods and the
`CredentialSchema` / `validate_schema` additions), which are exercised by the
repository's tests and examples but whose implementation files are not part
of the source snapshot; those parts are modelled from the specification and
carry a `Modelled from the spec:` doc comment.

Conventions of the embedding:
* Python `datetime` values are modelled as integers (a timestamp); the
  textual ISO rendering is abstracted to the decimal rendering of the
  timestamp (no claim inspects its shape).
* Python `dict` values (`Dict[str, Any]`) are modelled as association
  structures of `Json` values with first-occurrence lookup and `d[k] = v`
  assignment that replaces in place or appends at the end, mirroring the
  insertion-order semantics of a real `dict`.
* `pydantic` `HttpUrl` fields are modelled as strings, so the
  `str(...)` conversions of `to_json_ld` act on already-string values.
-/

set_option autoImplicit false

namespace PyOpenBadges

/-! ## Python values and dict operations -/

mutual

/-- A Python value as it appears inside `model_dump()` output and inside
`Dict[str, Any]` fields: strings, ints, booleans, `None`, `datetime`
objects (modelled by their integer timestamp), lists and dicts. -/
inductive Json where
  | str (s : String)
  | num (n : Int)
  | bool (b : Bool)
  | null
  | dt (t : Int)
  | arr (xs : JsonList)
  | obj (kvs : JsonObj)
  deriving DecidableEq

/-- A Python list of values. -/
inductive JsonList where
  | nil
  | cons (hd : Json) (tl : JsonList)
  deriving DecidableEq

/-- A Python dict with string keys, kept in insertion order. -/
inductive JsonObj where
  | nil
  | cons (key : String) (val : Json) (tl : JsonObj)
  deriving DecidableEq

end

/-- Build a Python list value from a Lean list. -/
def JsonList.ofList : List Json → JsonList
  | [] => .nil
  | x :: xs => .cons x (JsonList.ofList xs)

/-- `d[key]` on a Python dict: the value bound to `key`, if present (keys
are unique in a real `dict`; the association structure takes the first
binding). -/
def JsonObj.lookup : JsonObj → String → Option Json
  | .nil, _ => none
  | .cons k v rest, key => if k = key then some v else JsonObj.lookup rest key

/-- `d[key] = v` on a Python dict: replaces the value in place when the key
is present, appends the binding at the end when it is absent. -/
def JsonObj.set (key : String) (v : Json) : JsonObj → JsonObj
  | .nil => .cons key v .nil
  | .cons k w rest =>
    if k = key then .cons k v rest else .cons k w (JsonObj.set key v rest)

/-- Apply `f` to the value bound to `key`, when present (models the
`if key in d: d[key] = f(d[key])` pattern of `to_json_ld`). -/
def JsonObj.update (key : String) (f : Json → Json) : JsonObj → JsonObj
  | .nil => .nil
  | .cons k w rest =>
    if k = key then .cons k (f w) rest else .cons k w (JsonObj.update key f rest)

/-- A dict entry for an optional field under `model_dump(exclude_none=True)`:
dropped when the value is `None`. -/
def optEntry (key : String) (v : Option Json) (rest : JsonObj) : JsonObj :=
  match v with
  | none => rest
  | some j => .cons key j rest

/-- The decimal rendering standing in for `datetime.isoformat()`
(its exact shape is inspected by no claim). -/
def isoformat (t : Int) : String := toString t

/-- Python `str(...)` on the scalar values that can reach the
`str(...)` conversion sites of `to_json_ld`; composite values are left
unchanged (abstracted: no conversion site receives one). -/
def pyStr : Json → Json
  | .str s => .str s
  | .num n => .str (toString n)
  | .dt t => .str (isoformat t)
  | .bool b => .str (if b then "True" else "False")
  | .null => .str "None"
  | v => v

/-! ## Error taxonomy

The Python code raises `ValueError` with a message; the specification names
the situations (`UnsupportedAlgorithm`, `InvalidKeyFormat`,
`UnsupportedProofType`, `DuplicateProof`, `MissingProof`,
`UnsupportedSchemaType`), plus the `pydantic` field-validation errors. -/

/-- The error taxonomy of the system (spec §7), plus pydantic field
validation failures with their message. -/
inductive BadgeError where
  | UnsupportedAlgorithm
  | InvalidKeyFormat
  | UnsupportedProofType
  | DuplicateProof
  | MissingProof
  | UnsupportedSchemaType
  | ValidationError (msg : String)
  deriving DecidableEq

/-! ## Key material

Modelled from the spec: `pyopenbadges/crypto/keys.py` is not in the source
snapshot (only its tests are). Per spec §3/§4.1 a key is
`{algorithm, raw key bytes}` with byte-equality; we model the raw key
material by a natural number and key generation randomness by an explicit
seed, so that a generated pair is matching exactly when both keys carry the
same seed. -/

/-- The supported algorithms (spec §3). -/
inductive Algorithm where
  | Ed25519
  | RSA
  deriving DecidableEq

/-- A private key: algorithm plus raw key material. -/
structure PrivateKey where
  algorithm : Algorithm
  key_data : Nat
  deriving DecidableEq

/-- A public key: algorithm plus raw key material. -/
structure PublicKey where
  algorithm : Algorithm
  key_data : Nat
  deriving DecidableEq

/-- A matching key pair of one algorithm (spec §3). -/
structure KeyPair where
  algorithm : Algorithm
  private_key : PrivateKey
  public_key : PublicKey
  deriving DecidableEq

/-- Modelled from the spec: `generate_keypair(algorithm)` from `keys.py`
(not in the source snapshot). Fails with `UnsupportedAlgorithm` for any
value outside Ed25519 and RSA (spec §4.1); the fresh randomness of
generation is an explicit `seed`, and the generated pair is matching: both
keys carry the algorithm and the seed as raw key material. The RSA
`key_size` parameter only affects generation-time validation and raw key
length, neither of which any claim touches; it is omitted. -/
def generate_keypair (algorithm : String) (seed : Nat) : Except BadgeError KeyPair :=
  if algorithm = "Ed25519" then
    .ok ⟨.Ed25519, ⟨.Ed25519, seed⟩, ⟨.Ed25519, seed⟩⟩
  else if algorithm = "RSA" then
    .ok ⟨.RSA, ⟨.RSA, seed⟩, ⟨.RSA, seed⟩⟩
  else .error .UnsupportedAlgorithm

/-! ## The credential data model (`pyopenbadges/models/credential.py`)

`profile.py` and `achievement.py` are not in the source snapshot;
`credential.py` only reads their `id` and `type` fields (plus `name` in the
tests), so they are modelled with exactly those fields. -/

/-- Modelled from the spec: a `Profile` (issuer) object, reduced to the
fields the snapshot's `credential.py` and the tests read. -/
structure Profile where
  id : String
  type : String
  name : Option String
  deriving DecidableEq

/-- Modelled from the spec: an `Achievement` object, reduced to the fields
the snapshot's `credential.py` and the tests read. -/
structure Achievement where
  id : String
  type : String
  name : Option String
  deriving DecidableEq

/-- `Evidence` from `credential.py`: a supporting document for a badge. -/
structure Evidence where
  id : Option String
  type : String
  name : Option String
  description : Option String
  narrative : Option String
  genre : Option String
  deriving DecidableEq

/-- The `issuer` field of `OpenBadgeCredential`:
`Union[HttpUrl, Dict[str, Any], Profile]`. -/
inductive Issuer where
  | url (u : String)
  | dict (d : JsonObj)
  | profile (p : Profile)
  deriving DecidableEq

/-- The `achievement` field of `AchievementSubject`:
`Union[HttpUrl, Dict[str, Any], Achievement]`. -/
inductive AchievementRef where
  | url (u : String)
  | dict (d : JsonObj)
  | achievement (a : Achievement)
  deriving DecidableEq

/-- `AchievementSubject` from `credential.py`: the recipient together with
the achievement attributed to it. -/
structure AchievementSubject where
  id : String
  type : String
  achievement : AchievementRef
  name : Option String
  deriving DecidableEq

/-- The content view of a credential: every field of `OpenBadgeCredential`
except `proof` (spec §6, the stable view the proof subsystem canonicalizes). -/
structure CredentialContent where
  id : String
  type : List String
  issuer : Issuer
  issuanceDate : Int
  credentialSubject : AchievementSubject
  name : Option String
  description : Option String
  expirationDate : Option Int
  revoked : Option Bool
  revocationReason : Option String
  evidence : Option (List Evidence)
  deriving DecidableEq

/-- Modelled from the spec: the raw signature produced by the signing
primitive of `signing.py` (not in the source snapshot). Spec §4.3/§4.4: the
signature is deterministic in the private key and the canonical bytes, and
verification checks it against a public key and re-derived canonical bytes;
we model the ideal signature as determining the signing key material, its
algorithm and the signed canonical content. -/
structure Signature where
  algorithm : Algorithm
  key_data : Nat
  message : CredentialContent
  deriving DecidableEq

/-- Modelled from the spec: `proofValue` is a self-describing text encoding
of the raw signature and decoding inverts the encoding exactly (spec §4.3);
a well-formed encoded string is therefore modelled by the `Signature` it
decodes to, and any other string by `malformed` (which verification treats
as a failed check, spec §4.4). -/
inductive ProofValue where
  | encoded (sig : Signature)
  | malformed (s : String)
  deriving DecidableEq

/-- The string rendering of a `proofValue` as it appears in dict dumps
(the exact encoded text of a well-formed signature is abstracted; no claim
inspects it). -/
def ProofValue.text : ProofValue → String
  | .encoded _ => "z-encoded-signature"
  | .malformed s => s

/-- `Proof` from `credential.py`: a cryptographic proof attached to a
credential. -/
structure Proof where
  type : String
  created : Int
  verificationMethod : String
  proofPurpose : String
  proofValue : ProofValue
  deriving DecidableEq

/-- `OpenBadgeCredential` from `credential.py`, fields in declaration
order. -/
structure OpenBadgeCredential where
  id : String
  type : List String
  issuer : Issuer
  issuanceDate : Int
  credentialSubject : AchievementSubject
  name : Option String
  description : Option String
  proof : Option Proof
  expirationDate : Option Int
  revoked : Option Bool
  revocationReason : Option String
  evidence : Option (List Evidence)
  deriving DecidableEq

/-- The content view of a credential: all fields except `proof` (spec §6). -/
def OpenBadgeCredential.content (c : OpenBadgeCredential) : CredentialContent :=
  ⟨c.id, c.type, c.issuer, c.issuanceDate, c.credentialSubject, c.name,
   c.description, c.expirationDate, c.revoked, c.revocationReason, c.evidence⟩

/-! ## Field validators and construction (`credential.py`) -/

/-- `OpenBadgeCredential.validate_type`: the `type` list must contain
`VerifiableCredential` and `OpenBadgeCredential` (the
`isinstance(v, list)` coercion is vacuous in the embedding, where the field
is already a list). -/
def validate_type (v : List String) : Except BadgeError (List String) :=
  if "VerifiableCredential" ∉ v then
    .error (.ValidationError "Le type doit inclure VerifiableCredential")
  else if "OpenBadgeCredential" ∉ v then
    .error (.ValidationError "Le type doit inclure OpenBadgeCredential")
  else .ok v

/-- `OpenBadgeCredential.validate_issuer`: a dict issuer with
`type == 'Profile'`, an `id` and no `name` gets a default
`name = "Unnamed Issuer"` written into it; anything else passes through
unchanged. -/
def validate_issuer : Issuer → Issuer
  | .dict d =>
    if d.lookup "type" = some (.str "Profile") ∧ (d.lookup "id").isSome = true
        ∧ d.lookup "name" = none then
      .dict (d.set "name" (.str "Unnamed Issuer"))
    else .dict d
  | v => v

/-- `AchievementSubject.validate_achievement`: an `Achievement` object, a
dict with an `id`, or a URL reference; anything else is a `ValueError`. -/
def validate_achievement : AchievementRef → Except BadgeError AchievementRef
  | .achievement a => .ok (.achievement a)
  | .dict d =>
    if (d.lookup "id").isSome then .ok (.dict d)
    else .error (.ValidationError
      "achievement: URL, objet Achievement ou dictionnaire avec un champ id requis")
  | .url u => .ok (.url u)

/-- Constructing an `OpenBadgeCredential`: pydantic runs the field
validators on the given field values and stores their results. -/
def mkOpenBadgeCredential (id : String) (type : List String) (issuer : Issuer)
    (issuanceDate : Int) (credentialSubject : AchievementSubject)
    (name : Option String) (description : Option String) (proof : Option Proof)
    (expirationDate : Option Int) (revoked : Option Bool)
    (revocationReason : Option String) (evidence : Option (List Evidence)) :
    Except BadgeError OpenBadgeCredential := do
  let t ← validate_type type
  .ok ⟨id, t, validate_issuer issuer, issuanceDate, credentialSubject, name,
       description, proof, expirationDate, revoked, revocationReason, evidence⟩

/-! ## Validity (`OpenBadgeCredential.is_valid`) -/

/-- `OpenBadgeCredential.is_valid` from the snapshot's `credential.py`:
invalid when revoked, invalid when the expiration date has passed, valid
otherwise. `datetime.now()` is the explicit `now` argument; the Python
truthiness of `self.revoked : Optional[bool]` makes `None` behave as
`False`, and a present `datetime` is always truthy. -/
def OpenBadgeCredential.is_valid (c : OpenBadgeCredential) (now : Int) : Bool :=
  if c.revoked.getD false then false
  else if (match c.expirationDate with
           | some e => decide (e < now)
           | none => false) then false
  else true

/-! ## `model_dump(exclude_none=True)` and `to_json_ld` -/

/-- `model_dump(exclude_none=True)` of a `Profile`: its fields in
declaration order, `None` fields dropped. -/
def Profile.model_dump (p : Profile) : JsonObj :=
  .cons "id" (.str p.id) (.cons "type" (.str p.type)
    (optEntry "name" (p.name.map .str) .nil))

/-- `model_dump(exclude_none=True)` of an `Achievement`. -/
def Achievement.model_dump (a : Achievement) : JsonObj :=
  .cons "id" (.str a.id) (.cons "type" (.str a.type)
    (optEntry "name" (a.name.map .str) .nil))

/-- `model_dump(exclude_none=True)` of an `Evidence`. -/
def Evidence.model_dump (e : Evidence) : JsonObj :=
  optEntry "id" (e.id.map .str) (.cons "type" (.str e.type)
    (optEntry "name" (e.name.map .str)
      (optEntry "description" (e.description.map .str)
        (optEntry "narrative" (e.narrative.map .str)
          (optEntry "genre" (e.genre.map .str) .nil)))))

/-- The dict dump of an `issuer` field: a URL stays a string-like value, a
dict stays a dict, a nested `Profile` dumps recursively. -/
def Issuer.dump : Issuer → Json
  | .url u => .str u
  | .dict d => .obj d
  | .profile p => .obj p.model_dump

/-- The dict dump of an `achievement` field. -/
def AchievementRef.dump : AchievementRef → Json
  | .url u => .str u
  | .dict d => .obj d
  | .achievement a => .obj a.model_dump

/-- `model_dump(exclude_none=True)` of an `AchievementSubject`. -/
def AchievementSubject.model_dump (s : AchievementSubject) : JsonObj :=
  .cons "id" (.str s.id) (.cons "type" (.str s.type)
    (.cons "achievement" s.achievement.dump
      (optEntry "name" (s.name.map .str) .nil)))

/-- `model_dump(exclude_none=True)` of a `Proof` (no field is optional). -/
def Proof.model_dump (p : Proof) : JsonObj :=
  .cons "type" (.str p.type) (.cons "created" (.dt p.created)
    (.cons "verificationMethod" (.str p.verificationMethod)
      (.cons "proofPurpose" (.str p.proofPurpose)
        (.cons "proofValue" (.str p.proofValue.text) .nil))))

/-- `model_dump(exclude_none=True)` of an `OpenBadgeCredential`: its
fields in declaration order, `None` fields dropped, nested models dumped
recursively. -/
def OpenBadgeCredential.model_dump (c : OpenBadgeCredential) : JsonObj :=
  .cons "id" (.str c.id) <|
  .cons "type" (.arr (JsonList.ofList (c.type.map .str))) <|
  .cons "issuer" c.issuer.dump <|
  .cons "issuanceDate" (.dt c.issuanceDate) <|
  .cons "credentialSubject" (.obj c.credentialSubject.model_dump) <|
  optEntry "name" (c.name.map .str) <|
  optEntry "description" (c.description.map .str) <|
  optEntry "proof" (c.proof.map fun p => .obj p.model_dump) <|
  optEntry "expirationDate" (c.expirationDate.map .dt) <|
  optEntry "revoked" (c.revoked.map .bool) <|
  optEntry "revocationReason" (c.revocationReason.map .str) <|
  optEntry "evidence"
    (c.evidence.map fun es => .arr (JsonList.ofList (es.map fun e => .obj e.model_dump)))
  .nil

/-- `OpenBadgeCredential.to_json_ld` from the snapshot's `credential.py`,
translated statement by statement: dump the model without `None` fields,
stringify `id` and the ISO dates, collapse a `Profile` issuer or an
`Achievement` object into an `{id, type}` reference (stringifying the `id`
of a dict reference), stringify the subject `id`, and append the fixed
`@context` array. -/
def OpenBadgeCredential.to_json_ld (c : OpenBadgeCredential) : JsonObj :=
  let data := c.model_dump
  -- data['id'] = str(data['id'])
  let data := data.update "id" pyStr
  -- data['issuanceDate'] = data['issuanceDate'].isoformat()
  let data := data.update "issuanceDate" fun v =>
    match v with
    | .dt t => .str (isoformat t)
    | v => v
  -- data['expirationDate'] = data['expirationDate'].isoformat()
  let data := data.update "expirationDate" fun v =>
    match v with
    | .dt t => .str (isoformat t)
    | v => v
  -- issuer: a Profile object collapses to an {id, type} reference;
  -- a dict reference gets its id stringified
  let data :=
    match c.issuer with
    | .profile p =>
      data.set "issuer" (.obj (.cons "id" (.str p.id) (.cons "type" (.str p.type) .nil)))
    | _ =>
      data.update "issuer" fun v =>
        match v with
        | .obj kvs =>
          if (kvs.lookup "id").isSome then .obj (kvs.update "id" pyStr) else .obj kvs
        | v => v
  -- achievement: an Achievement object collapses to an {id, "Achievement"}
  -- reference; a dict reference gets its id stringified
  let data :=
    match c.credentialSubject.achievement with
    | .achievement a =>
      data.update "credentialSubject" fun v =>
        match v with
        | .obj kvs =>
          .obj (kvs.set "achievement"
            (.obj (.cons "id" (.str a.id) (.cons "type" (.str "Achievement") .nil))))
        | v => v
    | _ =>
      data.update "credentialSubject" fun v =>
        match v with
        | .obj kvs =>
          .obj (kvs.update "achievement" fun av =>
            match av with
            | .obj akvs =>
              if (akvs.lookup "id").isSome then .obj (akvs.update "id" pyStr)
              else .obj akvs
            | av => av)
        | v => v
  -- data['credentialSubject']['id'] = str(data['credentialSubject']['id'])
  let data := data.update "credentialSubject" fun v =>
    match v with
    | .obj kvs => .obj (kvs.update "id" pyStr)
    | v => v
  -- data["@context"] = [credentials/v1, openbadges/v3]
  data.set "@context" (.arr (.cons (.str "https://www.w3.org/2018/credentials/v1")
    (.cons (.str "https://w3id.org/openbadges/v3") .nil)))

/-! ## The proof subsystem

Modelled from the spec: `pyopenbadges/crypto/signing.py` and
`verification.py` are not in the source snapshot (only their tests are).
Spec §4.2 requires one shared canonicalization routine, deterministic and
sensitive to every field of the content, with the exact byte format left an
implementation choice; the free injective choice is to take the
proof-stripped content itself as the canonical form. -/

/-- Modelled from the spec: the shared canonicalization routine (spec §4.2)
used by both signing and verification — the credential's content with the
proof field excluded. -/
def canonicalize (c : OpenBadgeCredential) : CredentialContent := c.content

/-- Modelled from the spec: the signature primitive implied by the key's
algorithm (spec §4.3) — the ideal deterministic signature over the
canonical content. -/
def sign_bytes (k : PrivateKey) (m : CredentialContent) : Signature :=
  ⟨k.algorithm, k.key_data, m⟩

/-- The signature suite identifying an algorithm (spec §4.3: minimally
`Ed25519Signature2020`, RSA suites analogous; the exact RSA suite string is
not observable in the snapshot and the conventional name is used). -/
def suite : Algorithm → String
  | .Ed25519 => "Ed25519Signature2020"
  | .RSA => "RsaSignature2018"

/-- The supported proof suites (spec §4.3). -/
def supported_proof_types : List String :=
  ["Ed25519Signature2020", "RsaSignature2018"]

/-- Modelled from the spec: `create_proof` from `signing.py` (spec §4.3).
Fails with `UnsupportedProofType` outside the supported suite set;
otherwise signs the canonical content and returns a `Proof` with the given
creation time and verification method and the default
`assertionMethod` purpose. -/
def create_proof (content : CredentialContent) (private_key : PrivateKey)
    (verification_method : String) (proof_type : String) (created : Int) :
    Except BadgeError Proof :=
  if proof_type ∈ supported_proof_types then
    .ok ⟨proof_type, created, verification_method, "assertionMethod",
         .encoded (sign_bytes private_key content)⟩
  else .error .UnsupportedProofType

/-- Modelled from the spec: `sign_credential` from `signing.py` (spec
§4.3). Fails with `DuplicateProof` on an already-signed credential;
otherwise computes a proof over the canonical content and returns a new
credential value with the proof attached (the embedding is pure, so the
input value cannot be mutated). -/
def sign_credential (credential : OpenBadgeCredential) (private_key : PrivateKey)
    (verification_method : String) (proof_type : String) (created : Int) :
    Except BadgeError OpenBadgeCredential :=
  match credential.proof with
  | some _ => .error .DuplicateProof
  | none => do
    let p ← create_proof (canonicalize credential) private_key
      verification_method proof_type created
    .ok { credential with proof := some p }

/-- Modelled from the spec: `verify_proof` from `verification.py` (spec
§4.4). A malformed `proofValue` encoding yields `false`; an algorithm
mismatch between `proof.type` and the public key's algorithm yields
`false`; otherwise the decoded signature is checked against the public key
and the re-canonicalized content. Never an exception. -/
def verify_proof (content : CredentialContent) (proof : Proof)
    (public_key : PublicKey) : Bool :=
  match proof.proofValue with
  | .malformed _ => false
  | .encoded sig =>
    decide (proof.type = suite public_key.algorithm) &&
    decide (sig.algorithm = public_key.algorithm) &&
    decide (sig.key_data = public_key.key_data) &&
    decide (sig.message = content)

/-- Modelled from the spec: `verify_credential` from `verification.py`
(spec §4.4). Fails with `MissingProof` when the credential carries no
proof; otherwise strips the proof and delegates to `verify_proof`. -/
def verify_credential (credential : OpenBadgeCredential)
    (public_key : PublicKey) : Except BadgeError Bool :=
  match credential.proof with
  | none => .error .MissingProof
  | some p => .ok (verify_proof (canonicalize credential) p public_key)

/-- Modelled from the spec: the `OpenBadgeCredential.sign` convenience
method (not in the snapshot's `credential.py`), which delegates to
`sign_credential`; the tests show an Ed25519 key yields the
`Ed25519Signature2020` suite, so the default proof type is the suite of the
key's algorithm. -/
def OpenBadgeCredential.sign (c : OpenBadgeCredential) (private_key : PrivateKey)
    (verification_method : String) (created : Int) :
    Except BadgeError OpenBadgeCredential :=
  sign_credential c private_key verification_method
    (suite private_key.algorithm) created

/-- Modelled from the spec: the `OpenBadgeCredential.verify_signature`
convenience method (not in the snapshot's `credential.py`), which delegates
to `verify_credential`. -/
def OpenBadgeCredential.verify_signature (c : OpenBadgeCredential)
    (public_key : PublicKey) : Except BadgeError Bool :=
  verify_credential c public_key

/-! ## Credential schemas

Modelled from the spec: the `credentialSchema` field, `validate_schema`
and the schema clause of `is_valid` are exercised by
`tests/test_credential_schema.py` but are not part of the snapshot's
`credential.py`; spec §3 and §4.5 describe them. -/

/-- Modelled from the spec: `CredentialSchema` — `{id: URI, type:
schema-validator identifier}` (spec §3). -/
structure CredentialSchema where
  id : String
  type : String
  deriving DecidableEq

/-- Modelled from the spec: the fixed allow-list of supported
schema-validator identifiers (spec §3); the tests accept
`JsonSchemaValidator2019`. -/
def supported_schema_types : List String := ["JsonSchemaValidator2019"]

/-- Modelled from the spec: the credential model extended with the optional
`credentialSchema` field (spec §3), as constructed by
`tests/test_credential_schema.py`. -/
structure CredentialWithSchema where
  toCredential : OpenBadgeCredential
  credentialSchema : Option CredentialSchema
  deriving DecidableEq

/-- Modelled from the spec: `validate_schema` (spec §4.5) — `true`, or
`UnsupportedSchemaType` when the attached schema's validator type is
outside the allow-list. -/
def CredentialWithSchema.validate_schema (c : CredentialWithSchema) :
    Except BadgeError Bool :=
  match c.credentialSchema with
  | none => .ok true
  | some s =>
    if s.type ∈ supported_schema_types then .ok true
    else .error .UnsupportedSchemaType

/-- Modelled from the spec: the schema-aware `is_valid` (spec §4.5) —
`false` when revoked or expired; when a `credentialSchema` is present,
`false` when its validator type is unsupported (the failure is swallowed
into the boolean, not raised); otherwise `true`. -/
def CredentialWithSchema.is_valid (c : CredentialWithSchema) (now : Int) : Bool :=
  if c.toCredential.is_valid now then
    match c.credentialSchema with
    | none => true
    | some s => decide (s.type ∈ supported_schema_types)
  else false

/-! ## Concrete sample data (mirroring the repository's test fixtures) -/

/-- The issuer profile of the test fixtures. -/
def sampleProfile : Profile :=
  ⟨"https://example.org/issuers/1", "Profile", some "Test Organization"⟩

/-- The badge of the test fixtures. -/
def sampleBadge : Achievement :=
  ⟨"https://example.org/badges/1", "Achievement", some "Test Badge"⟩

/-- The recipient subject of the test fixtures. -/
def sampleSubject : AchievementSubject :=
  ⟨"did:example:recipient", "AchievementSubject", .url "https://example.org/badges/1", none⟩

/-- An unsigned credential, as in the test fixtures. -/
def sampleCredential : OpenBadgeCredential :=
  ⟨"https://example.org/credentials/1",
   ["VerifiableCredential", "OpenBadgeCredential"],
   .url "https://example.org/issuers/1", 1672531200, sampleSubject,
   none, none, none, none, none, none, none⟩

/-- An unsigned credential whose issuer is a full `Profile` object and whose
achievement is a full `Achievement` object. -/
def sampleObjectCredential : OpenBadgeCredential :=
  ⟨"https://example.org/credentials/1",
   ["VerifiableCredential", "OpenBadgeCredential"],
   .profile sampleProfile, 1672531200,
   ⟨"did:example:recipient", "AchievementSubject", .achievement sampleBadge, none⟩,
   none, none, none, none, none, none, none⟩

/-- The Ed25519 key pair generated from seed 0. -/
def sampleKeyPair : KeyPair := ⟨.Ed25519, ⟨.Ed25519, 0⟩, ⟨.Ed25519, 0⟩⟩

/-- A second, distinct Ed25519 key pair (seed 1). -/
def otherKeyPair : KeyPair := ⟨.Ed25519, ⟨.Ed25519, 1⟩, ⟨.Ed25519, 1⟩⟩

/-- The sample credential signed with the sample key. -/
def sampleSigned : OpenBadgeCredential :=
  { sampleCredential with
    proof := some ⟨"Ed25519Signature2020", 1672531300,
      "https://example.org/issuers/1/keys/1", "assertionMethod",
      .encoded ⟨.Ed25519, 0, sampleCredential.content⟩⟩ }

/-- A deep copy of the signed sample credential with the subject id
tampered. -/
def sampleTampered : OpenBadgeCredential :=
  { sampleSigned with
    credentialSubject :=
      ⟨"did:example:hacker", "AchievementSubject", .url "https://example.org/badges/1", none⟩ }

/-- The sample credential with a past expiration date. -/
def expiredCredential : OpenBadgeCredential :=
  { sampleCredential with expirationDate := some 1672531100 }

/-- The sample credential, revoked. -/
def revokedCredential : OpenBadgeCredential :=
  { sampleCredential with revoked := some true }

/-- The sample credential with a supported schema, as in the schema tests. -/
def schemaCredential : CredentialWithSchema :=
  ⟨sampleCredential,
   some ⟨"https://w3id.org/vc/status-list/2021/v1", "JsonSchemaValidator2019"⟩⟩

/-- The sample credential with an unsupported schema validator type. -/
def badSchemaCredential : CredentialWithSchema :=
  ⟨sampleCredential,
   some ⟨"https://w3id.org/vc/status-list/2021/v1", "UnsupportedSchemaType"⟩⟩

/-- A dict issuer with a type, an id and no name. -/
def issuerDict : JsonObj :=
  .cons "id" (.str "https://example.org/issuers/1")
    (.cons "type" (.str "Profile") .nil)

/-! ## Dict lemmas -/

/-- After `d[k] = v`, looking up `k` yields `v`. -/
theorem JsonObj.lookup_set_self : (d : JsonObj) → (k : String) → (v : Json) →
    (d.set k v).lookup k = some v
  | .nil, k, v => by simp [JsonObj.set, JsonObj.lookup]
  | .cons k' w rest, k, v => by
    by_cases h : k' = k
    · simp [JsonObj.set, JsonObj.lookup, h]
    · simp [JsonObj.set, JsonObj.lookup, h, JsonObj.lookup_set_self rest k v]

/-- `d[k] = v` does not change the binding of any other key. -/
theorem JsonObj.lookup_set_of_ne : (d : JsonObj) → {k k' : String} → k ≠ k' →
    (v : Json) → (d.set k v).lookup k' = d.lookup k'
  | .nil, k, k', h, v => by simp [JsonObj.set, JsonObj.lookup, h]
  | .cons ka w rest, k, k', h, v => by
    by_cases hk : ka = k
    · subst hk; simp [JsonObj.set, JsonObj.lookup, h]
    · simp [JsonObj.set, JsonObj.lookup, hk, JsonObj.lookup_set_of_ne rest h v]

/-- Updating at `k` maps the binding of `k` through `f`. -/
theorem JsonObj.lookup_update_self : (d : JsonObj) → (k : String) →
    (f : Json → Json) → (d.update k f).lookup k = (d.lookup k).map f
  | .nil, k, f => by simp [JsonObj.update, JsonObj.lookup]
  | .cons k' w rest, k, f => by
    by_cases h : k' = k
    · simp [JsonObj.update, JsonObj.lookup, h]
    · simp [JsonObj.update, JsonObj.lookup, h, JsonObj.lookup_update_self rest k f]

/-- Updating at `k` does not change the binding of any other key. -/
theorem JsonObj.lookup_update_of_ne : (d : JsonObj) → {k k' : String} → k ≠ k' →
    (f : Json → Json) → (d.update k f).lookup k' = d.lookup k'
  | .nil, k, k', h, f => by simp [JsonObj.update, JsonObj.lookup]
  | .cons ka w rest, k, k', h, f => by
    by_cases hk : ka = k
    · subst hk; simp [JsonObj.update, JsonObj.lookup, h]
    · simp [JsonObj.update, JsonObj.lookup, hk, JsonObj.lookup_update_of_ne rest h f]

/-! ## Crypto helper lemmas -/

/-- A successfully generated key pair is matching: both keys carry the
generation algorithm and the seed as raw key material. -/
theorem generate_keypair_matching {algorithm : String} {seed : Nat} {kp : KeyPair}
    (h : generate_keypair algorithm seed = .ok kp) :
    kp.private_key = ⟨kp.algorithm, seed⟩ ∧ kp.public_key = ⟨kp.algorithm, seed⟩ := by
  unfold generate_keypair at h
  split_ifs at h
  · cases h; exact ⟨rfl, rfl⟩
  · cases h; exact ⟨rfl, rfl⟩

/-- Attaching a proof does not change the content view. -/
theorem content_set_proof (c : OpenBadgeCredential) (p : Option Proof) :
    ({ c with proof := p } : OpenBadgeCredential).content = c.content := rfl

/-- Inversion of a successful `sign_credential`: the input was unsigned,
the suite was supported, and the result is the input with exactly the
freshly created proof attached. -/
theorem sign_credential_ok_inv {c : OpenBadgeCredential} {k : PrivateKey}
    {vm pt : String} {t : Int} {sc : OpenBadgeCredential}
    (h : sign_credential c k vm pt t = .ok sc) :
    c.proof = none ∧ pt ∈ supported_proof_types ∧
    sc = { c with proof := some ⟨pt, t, vm, "assertionMethod",
      .encoded (sign_bytes k c.content)⟩ } := by
  unfold sign_credential at h
  cases hp : c.proof with
  | some p => rw [hp] at h; exact Except.noConfusion h
  | none =>
    rw [hp] at h
    unfold create_proof canonicalize at h
    by_cases hs : pt ∈ supported_proof_types
    · refine ⟨rfl, hs, ?_⟩
      simp only [hs, if_true] at h
      exact (Except.ok.inj h).symm
    · simp only [hs, if_false] at h
      exact Except.noConfusion h

/-- A credential signed with the matching suite verifies against the
paired public key. -/
theorem verify_signed (c : OpenBadgeCredential) (a : Algorithm) (d : Nat)
    (vm : String) (t' : Int) :
    verify_credential
      { c with proof := some ⟨suite a, t', vm, "assertionMethod",
        .encoded ⟨a, d, c.content⟩⟩ } ⟨a, d⟩ = .ok true := by
  unfold verify_credential verify_proof canonicalize
  simp [content_set_proof]

/-! ## Claim theorems -/

/-- C1: for every credential without a proof and every freshly generated
matching key pair of a supported algorithm, verifying the result of signing
yields true — `verify_credential (sign_credential c priv vm (suite A)) pub
= ok true`, and equivalently `(c.sign priv vm).verify_signature pub = ok
true`. -/
theorem sign_verify_roundtrip
    (c : OpenBadgeCredential) (_hc : c.proof = none)
    (algorithm : String) (seed : Nat) (kp : KeyPair)
    (hkp : generate_keypair algorithm seed = .ok kp)
    (vm : String) (t : Int) (sc : OpenBadgeCredential)
    (hs : sign_credential c kp.private_key vm (suite kp.private_key.algorithm) t
      = .ok sc) :
    verify_credential sc kp.public_key = .ok true ∧
    ∀ sc2 : OpenBadgeCredential, c.sign kp.private_key vm t = .ok sc2 →
      sc2.verify_signature kp.public_key = .ok true := by
  obtain ⟨hpriv, hpub⟩ := generate_keypair_matching hkp
  constructor
  · obtain ⟨-, -, hsc⟩ := sign_credential_ok_inv hs
    subst hsc
    rw [hpub]
    simp only [hpriv, sign_bytes]
    exact verify_signed c kp.algorithm seed vm t
  · intro sc2 hs2
    obtain ⟨-, -, hsc2⟩ := sign_credential_ok_inv hs2
    subst hsc2
    unfold OpenBadgeCredential.verify_signature
    rw [hpub]
    simp only [hpriv, sign_bytes]
    exact verify_signed c kp.algorithm seed vm t

/-- C2: mutating any field of a signed credential's content before
verification makes verification with the original public key return false,
while the unmutated signed credential still verifies true. -/
theorem tampering_flips_verification
    (c : OpenBadgeCredential) (_hc : c.proof = none)
    (algorithm : String) (seed : Nat) (kp : KeyPair)
    (hkp : generate_keypair algorithm seed = .ok kp)
    (vm : String) (t : Int) (sc : OpenBadgeCredential)
    (hs : sign_credential c kp.private_key vm (suite kp.private_key.algorithm) t
      = .ok sc)
    (c2 : OpenBadgeCredential) (hcopy : c2.proof = sc.proof)
    (hmut : c2.content ≠ sc.content) :
    verify_credential c2 kp.public_key = .ok false ∧
    verify_credential sc kp.public_key = .ok true := by
  obtain ⟨hpriv, hpub⟩ := generate_keypair_matching hkp
  obtain ⟨-, -, hsc⟩ := sign_credential_ok_inv hs
  subst hsc
  rw [content_set_proof] at hmut
  constructor
  · have hne : c.content ≠ c2.content := fun e => hmut e.symm
    unfold verify_credential
    rw [hcopy]
    unfold verify_proof canonicalize
    simp [sign_bytes, hne]
  · rw [hpub]
    simp only [hpriv, sign_bytes]
    exact verify_signed c kp.algorithm seed vm t

/-- C3: `verify_credential` (and `verify_signature`) fails with
`MissingProof` exactly when the credential carries no proof; with a proof
present it always returns a boolean (never an exception), and verification
against the public key of a different generated key pair returns false. -/
theorem verify_error_discipline
    (c : OpenBadgeCredential) (pub : PublicKey) :
    (verify_credential c pub = .error .MissingProof ↔ c.proof = none) ∧
    (∀ p, c.proof = some p →
      verify_credential c pub = .ok (verify_proof (canonicalize c) p pub) ∧
      c.verify_signature pub = .ok (verify_proof (canonicalize c) p pub)) ∧
    (∀ c0 : OpenBadgeCredential, ∀ algorithm : String, ∀ seed seed2 : Nat,
      ∀ kp kp2 : KeyPair, ∀ vm : String, ∀ t : Int,
      ∀ sc : OpenBadgeCredential,
      generate_keypair algorithm seed = .ok kp →
      generate_keypair algorithm seed2 = .ok kp2 →
      seed ≠ seed2 →
      sign_credential c0 kp.private_key vm (suite kp.private_key.algorithm) t
        = .ok sc →
      verify_credential sc kp2.public_key = .ok false) := by
  refine ⟨?_, ?_, ?_⟩
  · unfold verify_credential
    cases hp : c.proof <;> simp
  · intro p hp
    unfold OpenBadgeCredential.verify_signature verify_credential
    rw [hp]
    exact ⟨rfl, rfl⟩
  · intro c0 algorithm seed seed2 kp kp2 vm t sc hkp hkp2 hne hs
    obtain ⟨hpriv, -⟩ := generate_keypair_matching hkp
    obtain ⟨-, hpub2⟩ := generate_keypair_matching hkp2
    have halg : kp.algorithm = kp2.algorithm := by
      unfold generate_keypair at hkp hkp2
      split_ifs at hkp hkp2 <;> cases hkp <;> cases hkp2 <;> rfl
    obtain ⟨-, -, hsc⟩ := sign_credential_ok_inv hs
    subst hsc
    unfold verify_credential verify_proof canonicalize
    rw [hpub2]
    simp [sign_bytes, hpriv, halg, hne]

/-- C4: signing a credential that already carries a proof fails with
`DuplicateProof` (for both `sign_credential` and the `sign` method); the
embedding is pure, so the already-signed input value is unaffected. -/
theorem sign_duplicate_proof
    (c : OpenBadgeCredential) (p : Proof) (h : c.proof = some p)
    (k : PrivateKey) (vm pt : String) (t : Int) :
    sign_credential c k vm pt t = .error .DuplicateProof ∧
    c.sign k vm t = .error .DuplicateProof := by
  unfold OpenBadgeCredential.sign sign_credential
  rw [h]
  exact ⟨rfl, rfl⟩

/-- C5: signing an unsigned credential with a supported suite succeeds and
returns a new credential value that carries a proof and whose every other
field equals the input's (the content view is unchanged); the embedding is
pure, so the input value itself stays unsigned. -/
theorem sign_credential_frame
    (c : OpenBadgeCredential) (hc : c.proof = none) (k : PrivateKey)
    (vm pt : String) (t : Int) (hpt : pt ∈ supported_proof_types) :
    (∃ sc, sign_credential c k vm pt t = .ok sc) ∧
    (∀ sc, sign_credential c k vm pt t = .ok sc →
      sc.proof.isSome = true ∧ sc.content = c.content ∧ c.proof = none) := by
  constructor
  · refine ⟨{ c with proof := some ⟨pt, t, vm, "assertionMethod",
      .encoded (sign_bytes k c.content)⟩ }, ?_⟩
    unfold sign_credential create_proof canonicalize
    rw [hc]
    simp only [hpt, if_true]
    rfl
  · intro sc hs
    obtain ⟨h1, -, hsc⟩ := sign_credential_ok_inv hs
    subst hsc
    exact ⟨rfl, rfl, h1⟩

/-- C6: `is_valid` is false for a revoked credential regardless of dates,
false for a credential whose expiration date lies before the current time,
and true when the credential is not revoked and its expiration date is
absent or in the future. -/
theorem is_valid_cases (c : OpenBadgeCredential) (now : Int) :
    (c.revoked = some true → c.is_valid now = false) ∧
    (∀ e, c.expirationDate = some e → e < now → c.is_valid now = false) ∧
    ((c.revoked = none ∨ c.revoked = some false) →
      (c.expirationDate = none ∨ ∃ e, c.expirationDate = some e ∧ now < e) →
      c.is_valid now = true) := by
  refine ⟨?_, ?_, ?_⟩
  · intro h
    simp [OpenBadgeCredential.is_valid, h]
  · intro e he hlt
    by_cases hr : c.revoked.getD false <;>
      simp [OpenBadgeCredential.is_valid, he, hlt, hr]
  · intro hr hexp
    have hrg : c.revoked.getD false = false := by
      rcases hr with h | h <;> simp [h]
    rcases hexp with h | ⟨e, he, hlt⟩
    · simp [OpenBadgeCredential.is_valid, hrg, h]
    · have hnlt : ¬ (e < now) := not_lt.mpr hlt.le
      simp [OpenBadgeCredential.is_valid, hrg, he, hnlt]

/-- C7: a credential carrying a schema whose validator type is outside the
allow-list is invalid under `is_valid` (the failure is swallowed into the
boolean) while `validate_schema` raises `UnsupportedSchemaType` for it; when
the schema type is supported, `validate_schema` returns true. -/
theorem schema_gate (c : CredentialWithSchema) (s : CredentialSchema)
    (now : Int) (h : c.credentialSchema = some s) :
    (s.type ∉ supported_schema_types →
      c.is_valid now = false ∧
      c.validate_schema = .error .UnsupportedSchemaType) ∧
    (s.type ∈ supported_schema_types → c.validate_schema = .ok true) := by
  unfold CredentialWithSchema.is_valid CredentialWithSchema.validate_schema
  rw [h]
  constructor
  · intro hn
    constructor
    · by_cases hv : c.toCredential.is_valid now <;> simp [hv, hn]
    · simp [hn]
  · intro hy
    simp [hy]

/-- C8: `to_json_ld` always binds `"@context"` to exactly the two-element
array of the credentials-v1 and openbadges-v3 context URIs, whatever the
credential's other fields. -/
theorem to_json_ld_context (c : OpenBadgeCredential) :
    (c.to_json_ld).lookup "@context" =
      some (.arr (.cons (.str "https://www.w3.org/2018/credentials/v1")
        (.cons (.str "https://w3id.org/openbadges/v3") .nil))) := by
  unfold OpenBadgeCredential.to_json_ld
  exact JsonObj.lookup_set_self _ _ _

/-- C9: `to_json_ld` collapses a fully-populated `Profile` issuer to the
`{id, type}` reference and a fully-populated `Achievement` object to the
`{id, "Achievement"}` reference, while bare URI references are kept as
references. -/
theorem to_json_ld_references (c : OpenBadgeCredential) :
    (∀ p : Profile, c.issuer = .profile p →
      (c.to_json_ld).lookup "issuer" =
        some (.obj (.cons "id" (.str p.id) (.cons "type" (.str p.type) .nil)))) ∧
    (∀ a : Achievement, c.credentialSubject.achievement = .achievement a →
      ∃ kvs, (c.to_json_ld).lookup "credentialSubject" = some (.obj kvs) ∧
        kvs.lookup "achievement" =
          some (.obj (.cons "id" (.str a.id)
            (.cons "type" (.str "Achievement") .nil)))) ∧
    (∀ u, c.issuer = .url u →
      (c.to_json_ld).lookup "issuer" = some (.str u)) ∧
    (∀ u, c.credentialSubject.achievement = .url u →
      ∃ kvs, (c.to_json_ld).lookup "credentialSubject" = some (.obj kvs) ∧
        kvs.lookup "achievement" = some (.str u)) := by
  refine ⟨?_, ?_, ?_, ?_⟩
  · intro p hp
    simp only [OpenBadgeCredential.to_json_ld, hp]
    cases hach : c.credentialSubject.achievement <;>
      simp [JsonObj.lookup_set_of_ne, JsonObj.lookup_update_of_ne,
        JsonObj.lookup_set_self]
  · intro a ha
    cases hi : c.issuer <;>
      simp [OpenBadgeCredential.to_json_ld, ha, hi,
        JsonObj.lookup_set_of_ne, JsonObj.lookup_update_of_ne,
        JsonObj.lookup_update_self, JsonObj.lookup_set_self,
        OpenBadgeCredential.model_dump, AchievementSubject.model_dump,
        JsonObj.lookup, JsonObj.set, JsonObj.update, pyStr]
  · intro u hu
    simp only [OpenBadgeCredential.to_json_ld, hu]
    cases hach : c.credentialSubject.achievement <;>
      (simp [JsonObj.lookup_set_of_ne, JsonObj.lookup_update_of_ne,
        JsonObj.lookup_update_self, OpenBadgeCredential.model_dump,
        JsonObj.lookup, Issuer.dump]
       try simp [hu, Issuer.dump])
  · intro u hu
    cases hi : c.issuer <;>
      simp [OpenBadgeCredential.to_json_ld, hu, hi,
        JsonObj.lookup_set_of_ne, JsonObj.lookup_update_of_ne,
        JsonObj.lookup_update_self, JsonObj.lookup_set_self,
        OpenBadgeCredential.model_dump, AchievementSubject.model_dump,
        AchievementRef.dump, JsonObj.lookup, JsonObj.set, JsonObj.update, pyStr]

/-- C10: constructing a credential whose issuer is a plain dict with
`type = 'Profile'`, an `id` and no `name` succeeds and silently inserts
`name = "Unnamed Issuer"` into the stored issuer dict (all other bindings
unchanged); issuers given as a URI string, a `Profile` object, or a dict
that already has a `name` are stored unaltered. -/
theorem unnamed_issuer_default
    (i : String) (ty : List String)
    (h1 : "VerifiableCredential" ∈ ty) (h2 : "OpenBadgeCredential" ∈ ty)
    (idate : Int) (subj : AchievementSubject) (nm ds : Option String)
    (pf : Option Proof) (ed : Option Int) (rv : Option Bool)
    (rr : Option String) (ev : Option (List Evidence)) :
    (∀ d : JsonObj, d.lookup "type" = some (.str "Profile") →
      (d.lookup "id").isSome = true → d.lookup "name" = none →
      ∃ c, mkOpenBadgeCredential i ty (.dict d) idate subj nm ds pf ed rv rr ev
          = .ok c ∧
        ∃ d2, c.issuer = .dict d2 ∧
          d2.lookup "name" = some (.str "Unnamed Issuer") ∧
          ∀ k, k ≠ "name" → d2.lookup k = d.lookup k) ∧
    (∀ u : String, ∃ c,
      mkOpenBadgeCredential i ty (.url u) idate subj nm ds pf ed rv rr ev
        = .ok c ∧ c.issuer = .url u) ∧
    (∀ p : Profile, ∃ c,
      mkOpenBadgeCredential i ty (.profile p) idate subj nm ds pf ed rv rr ev
        = .ok c ∧ c.issuer = .profile p) ∧
    (∀ d : JsonObj, ∀ w, d.lookup "name" = some w →
      ∃ c, mkOpenBadgeCredential i ty (.dict d) idate subj nm ds pf ed rv rr ev
        = .ok c ∧ c.issuer = .dict d) := by
  have hvt : validate_type ty = .ok ty := by
    simp [validate_type, h1, h2]
  have hmk : ∀ issuer : Issuer,
      mkOpenBadgeCredential i ty issuer idate subj nm ds pf ed rv rr ev =
        .ok ⟨i, ty, validate_issuer issuer, idate, subj, nm, ds, pf, ed, rv, rr, ev⟩ := by
    intro issuer
    unfold mkOpenBadgeCredential
    rw [hvt]
    rfl
  refine ⟨?_, ?_, ?_, ?_⟩
  · intro d htype hid hname
    refine ⟨_, hmk (.dict d), d.set "name" (.str "Unnamed Issuer"), ?_, ?_, ?_⟩
    · show validate_issuer (.dict d) = _
      simp [validate_issuer, htype, hid, hname]
    · exact JsonObj.lookup_set_self d "name" (.str "Unnamed Issuer")
    · intro k hk
      exact JsonObj.lookup_set_of_ne d (Ne.symm hk) _
  · intro u
    exact ⟨_, hmk (.url u), rfl⟩
  · intro p
    exact ⟨_, hmk (.profile p), rfl⟩
  · intro d w hw
    refine ⟨_, hmk (.dict d), ?_⟩
    show validate_issuer (.dict d) = _
    simp [validate_issuer, hw]

/-! ## Witnesses: the claim theorems applied at concrete inputs -/

/-- C1 witness: the Ed25519 test fixture signs and then verifies true. -/
theorem sign_verify_roundtrip_witness :
    sampleCredential.proof = none ∧
    generate_keypair "Ed25519" 0 = .ok sampleKeyPair ∧
    sign_credential sampleCredential sampleKeyPair.private_key
      "https://example.org/issuers/1/keys/1"
      (suite sampleKeyPair.private_key.algorithm) 1672531300 = .ok sampleSigned ∧
    verify_credential sampleSigned sampleKeyPair.public_key = .ok true :=
  ⟨rfl, rfl, rfl,
   (sign_verify_roundtrip sampleCredential rfl "Ed25519" 0 sampleKeyPair rfl
     "https://example.org/issuers/1/keys/1" 1672531300 sampleSigned rfl).1⟩

/-- C2 witness: tampering with the subject id flips verification to false
while the original still verifies true. -/
theorem tampering_flips_verification_witness :
    sampleTampered.content ≠ sampleSigned.content ∧
    verify_credential sampleTampered sampleKeyPair.public_key = .ok false ∧
    verify_credential sampleSigned sampleKeyPair.public_key = .ok true := by
  have h := tampering_flips_verification sampleCredential rfl "Ed25519" 0
    sampleKeyPair rfl "https://example.org/issuers/1/keys/1" 1672531300
    sampleSigned rfl sampleTampered rfl (by decide)
  exact ⟨by decide, h.1, h.2⟩

/-- C3 witness: an unsigned credential raises `MissingProof`; the signed
one checked against a different generated key pair returns false. -/
theorem verify_error_discipline_witness :
    sampleCredential.proof = none ∧
    verify_credential sampleCredential sampleKeyPair.public_key
      = .error .MissingProof ∧
    verify_credential sampleSigned otherKeyPair.public_key = .ok false := by
  have h := verify_error_discipline sampleCredential sampleKeyPair.public_key
  refine ⟨rfl, h.1.mpr rfl, ?_⟩
  exact h.2.2 sampleCredential "Ed25519" 0 1 sampleKeyPair otherKeyPair
    "https://example.org/issuers/1/keys/1" 1672531300 sampleSigned rfl rfl
    (by decide) rfl

/-- C4 witness: re-signing the signed sample credential raises
`DuplicateProof`. -/
theorem sign_duplicate_proof_witness :
    sampleSigned.proof.isSome = true ∧
    sign_credential sampleSigned sampleKeyPair.private_key
      "https://example.org/issuers/1/keys/1" "Ed25519Signature2020" 1672531400
      = .error .DuplicateProof := by
  have h := sign_duplicate_proof sampleSigned _ rfl sampleKeyPair.private_key
    "https://example.org/issuers/1/keys/1" "Ed25519Signature2020" 1672531400
  exact ⟨rfl, h.1⟩

/-- C5 witness: signing the unsigned sample credential succeeds, the result
carries a proof and has the same content view, and the input is unsigned. -/
theorem sign_credential_frame_witness :
    sampleCredential.proof = none ∧
    "Ed25519Signature2020" ∈ supported_proof_types ∧
    (∃ sc, sign_credential sampleCredential sampleKeyPair.private_key
      "https://example.org/issuers/1/keys/1" "Ed25519Signature2020" 1672531300
      = .ok sc) ∧
    (sampleSigned.proof.isSome = true ∧
      sampleSigned.content = sampleCredential.content ∧
      sampleCredential.proof = none) := by
  have h := sign_credential_frame sampleCredential rfl sampleKeyPair.private_key
    "https://example.org/issuers/1/keys/1" "Ed25519Signature2020" 1672531300
    (by decide)
  exact ⟨rfl, by decide, h.1, h.2 sampleSigned rfl⟩

/-- C6 witness: the revoked fixture is invalid, the expired one is invalid,
the clean one is valid. -/
theorem is_valid_cases_witness :
    revokedCredential.is_valid 1672531200 = false ∧
    expiredCredential.is_valid 1672531200 = false ∧
    sampleCredential.is_valid 1672531200 = true :=
  ⟨(is_valid_cases revokedCredential 1672531200).1 rfl,
   (is_valid_cases expiredCredential 1672531200).2.1 1672531100 rfl (by decide),
   (is_valid_cases sampleCredential 1672531200).2.2 (Or.inl rfl) (Or.inl rfl)⟩

/-- C7 witness: the unsupported-schema fixture is invalid and its explicit
validation raises `UnsupportedSchemaType`; the supported one validates
true. -/
theorem schema_gate_witness :
    badSchemaCredential.is_valid 1672531200 = false ∧
    badSchemaCredential.validate_schema = .error .UnsupportedSchemaType ∧
    schemaCredential.validate_schema = .ok true := by
  have h1 := schema_gate badSchemaCredential _ 1672531200 rfl
  have h2 := schema_gate schemaCredential _ 1672531200 rfl
  exact ⟨(h1.1 (by decide)).1, (h1.1 (by decide)).2, h2.2 (by decide)⟩

/-- C9 witness: the object-valued fixture collapses its issuer and
achievement to references; the URI-valued fixture keeps its issuer
reference. -/
theorem to_json_ld_references_witness :
    (sampleObjectCredential.to_json_ld).lookup "issuer" =
      some (.obj (.cons "id" (.str "https://example.org/issuers/1")
        (.cons "type" (.str "Profile") .nil))) ∧
    (∃ kvs,
      (sampleObjectCredential.to_json_ld).lookup "credentialSubject"
        = some (.obj kvs) ∧
      kvs.lookup "achievement" =
        some (.obj (.cons "id" (.str "https://example.org/badges/1")
          (.cons "type" (.str "Achievement") .nil)))) ∧
    (sampleCredential.to_json_ld).lookup "issuer" =
      some (.str "https://example.org/issuers/1") := by
  have h1 := to_json_ld_references sampleObjectCredential
  have h2 := to_json_ld_references sampleCredential
  exact ⟨h1.1 sampleProfile rfl, h1.2.1 sampleBadge rfl,
    h2.2.2.1 "https://example.org/issuers/1" rfl⟩

/-- C10 witness: a dict issuer with type Profile, an id and no name gets
the default name inserted, other bindings unchanged. -/
theorem unnamed_issuer_default_witness :
    ∃ c, mkOpenBadgeCredential "https://example.org/credentials/1"
        ["VerifiableCredential", "OpenBadgeCredential"] (.dict issuerDict)
        1672531200 sampleSubject none none none none none none none = .ok c ∧
      ∃ d2, c.issuer = .dict d2 ∧
        d2.lookup "name" = some (.str "Unnamed Issuer") ∧
        ∀ k, k ≠ "name" → d2.lookup k = issuerDict.lookup k := by
  have h := unnamed_issuer_default "https://example.org/credentials/1"
    ["VerifiableCredential", "OpenBadgeCredential"] (by decide) (by decide)
    1672531200 sampleSubject none none none none none none none
  exact h.1 issuerDict rfl (by decide) rfl

end PyOpenBadges
